import Mathlib

/-!
Verification of the emotion-detection engine (`EmotionEngine`).

The engine is embedded shallowly: JavaScript numbers are modelled as exact
rationals (`ℚ`), `Math.round` as `⌊q + 1/2⌋`, `null` as `Option`, and the
mutable class instance as an explicit `EngineState` record transformed by a
`step` function over an `Event` alphabet.  The asynchronous per-tick
detection body is split at its single suspension point (the classifier
`await`): `detectFrameResume` is the continuation that runs when the
classifier's promise settles, and a synchronous tick is the pre-await guard
followed by that continuation.
-/

-- ── Data model ────────────────────────────────────────────────────

/-- The seven per-category expression weights (source `EmotionScores`). -/
structure EmotionScores where
  neutral : ℚ
  happy : ℚ
  sad : ℚ
  angry : ℚ
  fearful : ℚ
  disgusted : ℚ
  surprised : ℚ
deriving DecidableEq

/-- One raw classifier sample (source `EmotionFrame`). -/
structure EmotionFrame where
  timestamp : ℕ
  emotions : EmotionScores
  confidence : ℚ
  faceDetected : Bool
deriving DecidableEq

/-- A derived aggregate view (source `EmotionSnapshot`). -/
structure EmotionSnapshot where
  dominant : String
  scores : EmotionScores
  confidence : ℚ
  frameCount : ℕ
  engagement : ℤ
  stress : ℤ
  positivity : ℤ
deriving DecidableEq

/-- Full session data (source `EmotionTimeline`). -/
structure EmotionTimeline where
  frames : List EmotionFrame
  snapshots : List EmotionSnapshot
  sessionAverage : EmotionSnapshot
  calibrationBaseline : Option EmotionScores
deriving DecidableEq

-- ── Constants ─────────────────────────────────────────────────────

def SMOOTHING_WINDOW : ℕ := 5

def MIN_CONFIDENCE : ℚ := 1/2

def CALIBRATION_FRAMES : ℕ := 10

def EMPTY_SCORES : EmotionScores :=
  { neutral := 0, happy := 0, sad := 0, angry := 0
    fearful := 0, disgusted := 0, surprised := 0 }

/-- JavaScript `Math.round` on an exact rational: round half toward +∞. -/
def roundJS (q : ℚ) : ℤ := ⌊q + 1/2⌋

theorem roundJS_nonneg {q : ℚ} (h : 0 ≤ q) : 0 ≤ roundJS q := by
  unfold roundJS
  exact Int.le_floor.mpr (by push_cast; linarith)

-- ── Aggregation helpers (private methods of `EmotionEngine`) ──────

/-- Source `averageScores`: component-wise mean, `EMPTY_SCORES` on `[]`. -/
def averageScores (scoresList : List EmotionScores) : EmotionScores :=
  if scoresList.isEmpty then EMPTY_SCORES
  else
    let n : ℚ := scoresList.length
    { neutral := (scoresList.map (·.neutral)).sum / n
      happy := (scoresList.map (·.happy)).sum / n
      sad := (scoresList.map (·.sad)).sum / n
      angry := (scoresList.map (·.angry)).sum / n
      fearful := (scoresList.map (·.fearful)).sum / n
      disgusted := (scoresList.map (·.disgusted)).sum / n
      surprised := (scoresList.map (·.surprised)).sum / n }

/-- The shift-and-clamp stage of `applyCalibration` (the local `shifted`). -/
def shiftedScores (scores baseline : EmotionScores) : EmotionScores :=
  { neutral := max 0 (scores.neutral - baseline.neutral * (3/10))
    happy := max 0 (scores.happy + baseline.neutral * (1/20))
    sad := max 0 scores.sad
    angry := max 0 scores.angry
    fearful := max 0 scores.fearful
    disgusted := max 0 scores.disgusted
    surprised := max 0 scores.surprised }

/-- Sum in `Object.values` order of the seven weights (object-literal
insertion order). -/
def sumScores (s : EmotionScores) : ℚ :=
  s.neutral + s.happy + s.sad + s.angry + s.fearful + s.disgusted + s.surprised

/-- Source `applyCalibration`: shift relative to the baseline, clamp at 0,
then renormalize to sum 1 unless the pre-normalization total is 0. -/
def applyCalibration (scores baseline : EmotionScores) : EmotionScores :=
  let shifted := shiftedScores scores baseline
  let total := sumScores shifted
  if 0 < total then
    { neutral := shifted.neutral / total
      happy := shifted.happy / total
      sad := shifted.sad / total
      angry := shifted.angry / total
      fearful := shifted.fearful / total
      disgusted := shifted.disgusted / total
      surprised := shifted.surprised / total }
  else shifted

/-- Entries as `Object.entries` yields them for an `EmotionScores` object,
in insertion order. -/
def scoreEntries (s : EmotionScores) : List (String × ℚ) :=
  [("neutral", s.neutral), ("happy", s.happy), ("sad", s.sad),
   ("angry", s.angry), ("fearful", s.fearful), ("disgusted", s.disgusted),
   ("surprised", s.surprised)]

/-- Source `getDominant`: linear scan with strict `>` starting from
`max = -1`, `label = "neutral"`. -/
def getDominant (s : EmotionScores) : String :=
  ((scoreEntries s).foldl (fun acc kv => if acc.2 < kv.2 then kv else acc)
    ("neutral", -1)).1

/-- Validity test used by `computeSmoothedSnapshot`'s filter. -/
def isValidFrame (f : EmotionFrame) : Bool :=
  f.faceDetected && decide (MIN_CONFIDENCE ≤ f.confidence)

/-- JS `arr.slice(-SMOOTHING_WINDOW)`: the trailing window. -/
def lastWindow (l : List EmotionFrame) : List EmotionFrame :=
  l.drop (l.length - SMOOTHING_WINDOW)

/-- The zero snapshot returned when no valid frame is available. -/
def zeroSnapshot : EmotionSnapshot :=
  { dominant := "unknown", scores := EMPTY_SCORES, confidence := 0
    frameCount := 0, engagement := 0, stress := 0, positivity := 0 }

/-- Source `computeSmoothedSnapshot`, parameterized by the instance field
`this.calibrationBaseline` it reads. -/
def computeSmoothedSnapshot (baseline : Option EmotionScores)
    (frames : List EmotionFrame) : EmotionSnapshot :=
  let validFrames := frames.filter isValidFrame
  if validFrames.isEmpty then zeroSnapshot
  else
    let window := lastWindow validFrames
    let avgScores := averageScores (window.map (·.emotions))
    let avgConfidence := (window.map (·.confidence)).sum / (window.length : ℚ)
    let calibrated :=
      match baseline with
      | some b => applyCalibration avgScores b
      | none => avgScores
    { dominant := getDominant calibrated
      scores := calibrated
      confidence := avgConfidence
      frameCount := validFrames.length
      engagement := min 100 (roundJS ((1 - calibrated.neutral) * 100))
      stress := min 100 (roundJS ((calibrated.angry + calibrated.fearful +
        calibrated.sad + calibrated.disgusted) * 100))
      positivity := min 100 (roundJS ((calibrated.happy +
        calibrated.surprised * (1/2)) * 100)) }

-- ── Engine state and events ───────────────────────────────────────

/-- The mutable fields of the `EmotionEngine` class instance.  DOM handles
(`videoElement`, `stream`, `detectionInterval`) are modelled by their
nullness, which is all the engine's control flow reads; the two callback
fields are elided (invoking them does not change engine state).
`classifierCalls` is a ghost counter of completed `detectSingleFace`
invocations, used to state per-tick properties. -/
structure EngineState where
  modelsLoaded : Bool := false
  hasVideo : Bool := false
  hasStream : Bool := false
  intervalActive : Bool := false
  isRunning : Bool := false
  frames : List EmotionFrame := []
  currentAnswerFrames : List EmotionFrame := []
  snapshots : List EmotionSnapshot := []
  calibrationBaseline : Option EmotionScores := none
  calibrationFrames : List EmotionFrame := []
  isCalibrating : Bool := false
  classifierCalls : ℕ := 0
deriving DecidableEq

/-- The classifier boundary: a settled `detectSingleFace(...)` promise.
`face` carries the expression probabilities and detection score, `noFace`
is a `null` resolution, `error` a rejection. -/
inductive ClassifierResult where
  | face (emotions : EmotionScores) (confidence : ℚ)
  | noFace
  | error
deriving DecidableEq

/-- The body of `detectFrame` from the point where the classifier promise
settles (everything after the `await`, lines 299-354 of the source).  The
source re-reads no guard after the `await`, so this continuation applies
to whatever state the instance holds at resumption time.  The `catch`
branch (`error`) swallows the rejection and changes nothing. -/
def detectFrameResume (s : EngineState) (res : ClassifierResult)
    (now : ℕ) : EngineState :=
  match res with
  | .face emo conf =>
    if MIN_CONFIDENCE ≤ conf then
      let frame : EmotionFrame :=
        { timestamp := now, emotions := emo, confidence := conf
          faceDetected := true }
      let s₁ := { s with frames := s.frames ++ [frame]
                         currentAnswerFrames := s.currentAnswerFrames ++ [frame] }
      if s₁.isCalibrating then
        let cf := s₁.calibrationFrames ++ [frame]
        if CALIBRATION_FRAMES ≤ cf.length then
          { s₁ with calibrationFrames := cf
                    calibrationBaseline :=
                      some (averageScores (cf.map (·.emotions)))
                    isCalibrating := false }
        else { s₁ with calibrationFrames := cf }
      else s₁
    else s
  | .noFace =>
    let frame : EmotionFrame :=
      { timestamp := now, emotions := EMPTY_SCORES, confidence := 0
        faceDetected := false }
    { s with frames := s.frames ++ [frame]
             currentAnswerFrames := s.currentAnswerFrames ++ [frame] }
  | .error => s

/-- Public operations and scheduler ticks.  A `tick` event is one firing of
the 500ms interval whose classifier call settles with `res` without any
other operation interleaved before its continuation runs; `paused` is the
video element's paused-or-ended status at the head of `detectFrame`. -/
inductive Event where
  | loadModels (success : Bool)
  | startWebcam (success : Bool)
  | stopWebcam
  | startDetection
  | stopDetection
  | tick (paused : Bool) (res : ClassifierResult) (now : ℕ)
  | captureAnswerSnapshot
  | destroy
deriving DecidableEq

/-- Source `getCurrentSnapshot`. -/
def getCurrentSnapshot (s : EngineState) : EmotionSnapshot :=
  computeSmoothedSnapshot s.calibrationBaseline s.currentAnswerFrames

/-- Source `getSessionSummary`. -/
def getSessionSummary (s : EngineState) : EmotionSnapshot :=
  computeSmoothedSnapshot s.calibrationBaseline s.frames

/-- Source `getTimeline`. -/
def getTimeline (s : EngineState) : EmotionTimeline :=
  { frames := s.frames
    snapshots := s.snapshots
    sessionAverage := computeSmoothedSnapshot s.calibrationBaseline s.frames
    calibrationBaseline := s.calibrationBaseline }

/-- One public operation or scheduler tick, acting on the instance state.
Read-only accessors are omitted: they do not change the state. -/
def step (s : EngineState) (e : Event) : EngineState :=
  match e with
  | .loadModels ok =>
    if s.modelsLoaded then s
    else if ok then { s with modelsLoaded := true } else s
  | .startWebcam ok =>
    -- `this.videoElement = videoEl` precedes the `getUserMedia` await,
    -- so it is assigned on the failure path too.
    if ok then { s with hasVideo := true, hasStream := true }
    else { s with hasVideo := true }
  | .stopWebcam => { s with hasStream := false, hasVideo := false }
  | .startDetection =>
    if s.modelsLoaded = false ∨ s.hasVideo = false then s
    else if s.isRunning then s
    else { s with isRunning := true, isCalibrating := true
                  calibrationFrames := [], intervalActive := true }
  | .stopDetection => { s with intervalActive := false, isRunning := false }
  | .tick paused res now =>
    -- The interval only fires while armed; `detectFrame` returns at once
    -- when the video element is gone or paused/ended, before the
    -- classifier is invoked.
    if s.intervalActive then
      if s.hasVideo = false ∨ paused then s
      else detectFrameResume { s with classifierCalls := s.classifierCalls + 1 } res now
    else s
  | .captureAnswerSnapshot =>
    { s with snapshots := s.snapshots ++ [getCurrentSnapshot s]
             currentAnswerFrames := [] }
  | .destroy =>
    { s with intervalActive := false, isRunning := false
             hasStream := false, hasVideo := false
             frames := [], currentAnswerFrames := [], snapshots := []
             calibrationBaseline := none, calibrationFrames := [] }

/-- The freshly constructed singleton. -/
def initState : EngineState := {}

/-- A state with models loaded and a webcam attached, ready to detect. -/
def readyState : EngineState :=
  { modelsLoaded := true, hasVideo := true, hasStream := true }

/-- Run a trace of events from a state. -/
def run (s : EngineState) (es : List Event) : EngineState :=
  es.foldl step s

/-- Run a list of settled classifier results as unpaused ticks (the
steady-state detection loop; timestamps are irrelevant to every claim and
fixed at 0). -/
def runTicks (s : EngineState) (results : List ClassifierResult) : EngineState :=
  results.foldl (fun t r => step t (.tick false r 0)) s

/-- The list of frames a single settled tick appends (to both the session
log and the current-answer buffer). -/
def tickAppend (res : ClassifierResult) (now : ℕ) : List EmotionFrame :=
  match res with
  | .face emo conf =>
    if MIN_CONFIDENCE ≤ conf then
      [{ timestamp := now, emotions := emo, confidence := conf
         faceDetected := true }]
    else []
  | .noFace =>
    [{ timestamp := now, emotions := EMPTY_SCORES, confidence := 0
       faceDetected := false }]
  | .error => []

/-- All seven weights non-negative. -/
def nonnegScores (s : EmotionScores) : Prop :=
  0 ≤ s.neutral ∧ 0 ≤ s.happy ∧ 0 ≤ s.sad ∧ 0 ≤ s.angry ∧
  0 ≤ s.fearful ∧ 0 ≤ s.disgusted ∧ 0 ≤ s.surprised

-- ── Helper lemmas ─────────────────────────────────────────────────

theorem detectFrameResume_frames (s : EngineState) (res : ClassifierResult)
    (now : ℕ) :
    (detectFrameResume s res now).frames = s.frames ++ tickAppend res now := by
  cases res with
  | face emo conf =>
    by_cases h : MIN_CONFIDENCE ≤ conf <;>
      simp [detectFrameResume, tickAppend, h] <;> split_ifs <;> simp
  | noFace => simp [detectFrameResume, tickAppend]
  | error => simp [detectFrameResume, tickAppend]

theorem detectFrameResume_curr (s : EngineState) (res : ClassifierResult)
    (now : ℕ) :
    (detectFrameResume s res now).currentAnswerFrames =
      s.currentAnswerFrames ++ tickAppend res now := by
  cases res with
  | face emo conf =>
    by_cases h : MIN_CONFIDENCE ≤ conf <;>
      simp [detectFrameResume, tickAppend, h] <;> split_ifs <;> simp
  | noFace => simp [detectFrameResume, tickAppend]
  | error => simp [detectFrameResume, tickAppend]

theorem detectFrameResume_classifierCalls (s : EngineState)
    (res : ClassifierResult) (now : ℕ) :
    (detectFrameResume s res now).classifierCalls = s.classifierCalls := by
  cases res with
  | face emo conf =>
    by_cases h : MIN_CONFIDENCE ≤ conf <;>
      simp [detectFrameResume, h] <;> split_ifs <;> simp
  | noFace => simp [detectFrameResume]
  | error => simp [detectFrameResume]

-- ── C9 ────────────────────────────────────────────────────────────

/-- Claim C9: for every baseline and every frame sequence containing zero
valid frames (no frame has `faceDetected = true` together with confidence
at least `MIN_CONFIDENCE`), `computeSmoothedSnapshot` returns the zero
snapshot: dominant `"unknown"`, all seven scores 0, confidence 0,
frame count 0, and engagement, stress, positivity all 0. -/
theorem C9_zero_valid_frames (baseline : Option EmotionScores)
    (fs : List EmotionFrame)
    (h : ∀ f ∈ fs, f.faceDetected = true → f.confidence < MIN_CONFIDENCE) :
    computeSmoothedSnapshot baseline fs =
      { dominant := "unknown", scores := EMPTY_SCORES, confidence := 0
        frameCount := 0, engagement := 0, stress := 0, positivity := 0 } := by
  have hfil : fs.filter isValidFrame = [] := by
    rw [List.filter_eq_nil_iff]
    intro f hf
    simp only [isValidFrame, Bool.and_eq_true, decide_eq_true_eq, not_and]
    intro hface
    exact not_le.mpr (h f hf hface)
  simp [computeSmoothedSnapshot, hfil, zeroSnapshot]

/-- Witness for C9: a list holding one no-face frame and one low-confidence
frame yields the zero snapshot. -/
theorem C9_zero_valid_frames_witness :
    computeSmoothedSnapshot none
      [{ timestamp := 0, emotions := EMPTY_SCORES, confidence := 0
         faceDetected := false },
       { timestamp := 1, emotions := EMPTY_SCORES, confidence := 1/4
         faceDetected := true }] =
      { dominant := "unknown", scores := EMPTY_SCORES, confidence := 0
        frameCount := 0, engagement := 0, stress := 0, positivity := 0 } := by
  apply C9_zero_valid_frames
  intro f hf
  simp only [List.mem_cons, List.mem_singleton, List.not_mem_nil] at hf
  rcases hf with rfl | rfl | h
  · intro hface; cases hface
  · intro _; norm_num [MIN_CONFIDENCE]
  · cases h

-- ── C4 ────────────────────────────────────────────────────────────

/-- Claim C4: for every `EmotionScores` input and every baseline, the
output of `applyCalibration` (shift, clamp at 0, renormalize) either has
its seven weights summing to exactly 1 or is all-zero, and the all-zero
case occurs exactly when the pre-normalization total (the sum of the
shifted, clamped weights) is zero. -/
theorem C4_calibration_normalization (scores baseline : EmotionScores) :
    (sumScores (applyCalibration scores baseline) = 1 ∨
      applyCalibration scores baseline = EMPTY_SCORES) ∧
    (applyCalibration scores baseline = EMPTY_SCORES ↔
      sumScores (shiftedScores scores baseline) = 0) := by
  set sh := shiftedScores scores baseline with hsh
  have hnn : nonnegScores sh := by
    simp only [hsh, shiftedScores, nonnegScores]
    refine ⟨le_max_left .., le_max_left .., le_max_left .., le_max_left ..,
      le_max_left .., le_max_left .., le_max_left ..⟩
  obtain ⟨h1, h2, h3, h4, h5, h6, h7⟩ := hnn
  have htot : 0 ≤ sumScores sh := by unfold sumScores; linarith
  by_cases hpos : 0 < sumScores sh
  · have hne : sumScores sh ≠ 0 := ne_of_gt hpos
    have happ : applyCalibration scores baseline =
        { neutral := sh.neutral / sumScores sh
          happy := sh.happy / sumScores sh
          sad := sh.sad / sumScores sh
          angry := sh.angry / sumScores sh
          fearful := sh.fearful / sumScores sh
          disgusted := sh.disgusted / sumScores sh
          surprised := sh.surprised / sumScores sh } := by
      rw [applyCalibration]
      simp only [← hsh, if_pos hpos]
    have hsum : sumScores (applyCalibration scores baseline) = 1 := by
      rw [happ]
      show sh.neutral / sumScores sh + sh.happy / sumScores sh +
        sh.sad / sumScores sh + sh.angry / sumScores sh +
        sh.fearful / sumScores sh + sh.disgusted / sumScores sh +
        sh.surprised / sumScores sh = 1
      field_simp
      rw [sumScores]
    refine ⟨Or.inl hsum, ?_, fun h0 => absurd h0 hne⟩
    intro hzero
    rw [hzero] at hsum
    norm_num [sumScores, EMPTY_SCORES] at hsum
  · have hzero : sumScores sh = 0 := le_antisymm (not_lt.mp hpos) htot
    have hshz : sh = EMPTY_SCORES := by
      have := hzero
      rw [sumScores] at this
      have e1 : sh.neutral = 0 := by linarith
      have e2 : sh.happy = 0 := by linarith
      have e3 : sh.sad = 0 := by linarith
      have e4 : sh.angry = 0 := by linarith
      have e5 : sh.fearful = 0 := by linarith
      have e6 : sh.disgusted = 0 := by linarith
      have e7 : sh.surprised = 0 := by linarith
      have heta : sh = ⟨sh.neutral, sh.happy, sh.sad, sh.angry, sh.fearful,
        sh.disgusted, sh.surprised⟩ := rfl
      rw [heta, e1, e2, e3, e4, e5, e6, e7]
      rfl
    have happ : applyCalibration scores baseline = sh := by
      rw [applyCalibration]
      simp only [← hsh, if_neg hpos]
    exact ⟨Or.inr (happ.trans hshz), fun _ => hzero, fun _ => happ.trans hshz⟩

-- ── C1 ────────────────────────────────────────────────────────────

/-- Scores `{happy: 0.8, neutral: 0.2, others: 0}` from the spec's concrete
scenario. -/
def happyScores : EmotionScores :=
  { neutral := 1/5, happy := 4/5, sad := 0, angry := 0
    fearful := 0, disgusted := 0, surprised := 0 }

/-- The engine right after `startDetection()` from a ready instance:
detection is running and no frame has been ingested yet. -/
def runningState : EngineState := step readyState .startDetection

/-- Claim C1 counterexample: on a tick whose classifier call throws, the
engine (while running, with the interval armed and the video attached)
invokes the classifier once but appends no frame at all — the session log
stays empty instead of receiving the `faceDetected = false` frame the
claim requires. -/
theorem C1_counterexample :
    runningState.isRunning = true ∧
    runningState.intervalActive = true ∧
    runningState.hasVideo = true ∧
    runningState.frames = [] ∧
    (step runningState (.tick false .error 0)).classifierCalls =
      runningState.classifierCalls + 1 ∧
    (step runningState (.tick false .error 0)).frames = [] ∧
    (step runningState (.tick false .error 0)).currentAnswerFrames = [] := by
  refine ⟨rfl, rfl, rfl, rfl, ?_, ?_, ?_⟩ <;>
    simp [runningState, readyState, step, detectFrameResume]

/-- Claim C1 amended: while the interval is armed and the video element is
attached and playing, every settled tick invokes the classifier exactly
once and appends the same frame list to the session log and the
current-answer buffer: one `faceDetected = true` frame when a face is
returned with confidence at least `MIN_CONFIDENCE`, one
`faceDetected = false` frame when the classifier resolves with no face,
and no frame at all when the classifier throws or the returned face's
confidence is below `MIN_CONFIDENCE`; a thrown classifier error is
swallowed (`detectFrameResume` is total and returns the unchanged state on
`error`, never an exception). -/
theorem C1_amended_tick_append (s : EngineState) (res : ClassifierResult)
    (now : ℕ) (hA : s.intervalActive = true) (hV : s.hasVideo = true) :
    (step s (.tick false res now)).classifierCalls = s.classifierCalls + 1 ∧
    (step s (.tick false res now)).frames = s.frames ++ tickAppend res now ∧
    (step s (.tick false res now)).currentAnswerFrames =
      s.currentAnswerFrames ++ tickAppend res now := by
  have hstep : step s (.tick false res now) =
      detectFrameResume { s with classifierCalls := s.classifierCalls + 1 } res now := by
    simp [step, hA, hV]
  rw [hstep]
  refine ⟨?_, ?_, ?_⟩
  · rw [detectFrameResume_classifierCalls]
  · rw [detectFrameResume_frames]
  · rw [detectFrameResume_curr]

/-- Witness for C1's amended theorem at a concrete running state and a
no-face tick: exactly one `faceDetected = false` frame is appended to both
collections and the classifier was invoked once. -/
theorem C1_amended_tick_append_witness :
    (step runningState (.tick false .noFace 3)).classifierCalls =
      runningState.classifierCalls + 1 ∧
    (step runningState (.tick false .noFace 3)).frames =
      runningState.frames ++ tickAppend .noFace 3 ∧
    (step runningState (.tick false .noFace 3)).currentAnswerFrames =
      runningState.currentAnswerFrames ++ tickAppend .noFace 3 :=
  C1_amended_tick_append runningState .noFace 3 rfl rfl

-- ── C3 ────────────────────────────────────────────────────────────

/-- The engine after `startDetection()` followed by `stopDetection()`:
the interval is cancelled and `isRunning` is false. -/
def stoppedState : EngineState :=
  step (step readyState .startDetection) .stopDetection

/-- Claim C3 (code bug evidence): after `stopDetection()` has cancelled
the scheduler, the continuation of a classifier call that was in flight at
the moment of cancellation — `detectFrameResume`, the post-`await` body of
`detectFrame`, which re-checks no cancellation flag — still appends its
frame to both the session log and the current-answer buffer when its
result arrives. -/
theorem C3_inflight_append_after_stop :
    stoppedState.isRunning = false ∧
    stoppedState.intervalActive = false ∧
    stoppedState.frames = [] ∧
    (detectFrameResume stoppedState (.face happyScores (9/10)) 7).frames =
      [{ timestamp := 7, emotions := happyScores, confidence := 9/10
         faceDetected := true }] ∧
    (detectFrameResume stoppedState (.face happyScores (9/10)) 7).currentAnswerFrames =
      [{ timestamp := 7, emotions := happyScores, confidence := 9/10
         faceDetected := true }] := by
  refine ⟨rfl, rfl, rfl, ?_, ?_⟩
  · rw [detectFrameResume_frames]
    norm_num [stoppedState, readyState, step, tickAppend, MIN_CONFIDENCE]
  · rw [detectFrameResume_curr]
    norm_num [stoppedState, readyState, step, tickAppend, MIN_CONFIDENCE]

-- ── C7 ────────────────────────────────────────────────────────────

/-- Discriminator for scheduler-tick events (frame ingestion). -/
def Event.isTick : Event → Bool
  | .tick _ _ _ => true
  | _ => false

/-- Claim C7: `captureAnswerSnapshot()` appends the snapshot computed from
the current-answer buffer to the per-answer snapshot list and clears the
current-answer buffer while leaving the session log unchanged; no public
operation other than frame ingestion (ticks), `captureAnswerSnapshot` and
`destroy` mutates the current-answer buffer; and the session log length
never decreases under any operation other than `destroy`. -/
theorem C7_capture_and_log_monotone (s : EngineState) (e : Event) :
    ((step s .captureAnswerSnapshot).snapshots =
        s.snapshots ++ [getCurrentSnapshot s] ∧
      (step s .captureAnswerSnapshot).currentAnswerFrames = [] ∧
      (step s .captureAnswerSnapshot).frames = s.frames) ∧
    (e.isTick = false → e ≠ .captureAnswerSnapshot → e ≠ .destroy →
      (step s e).currentAnswerFrames = s.currentAnswerFrames) ∧
    (e ≠ .destroy → s.frames.length ≤ (step s e).frames.length) := by
  refine ⟨⟨rfl, rfl, rfl⟩, ?_, ?_⟩
  · intro hT hC hD
    cases e with
    | tick paused res now => simp [Event.isTick] at hT
    | captureAnswerSnapshot => exact absurd rfl hC
    | destroy => exact absurd rfl hD
    | loadModels ok => simp only [step]; split_ifs <;> rfl
    | startWebcam ok => simp only [step]; split_ifs <;> rfl
    | stopWebcam => rfl
    | startDetection => simp only [step]; split_ifs <;> rfl
    | stopDetection => rfl
  · intro hD
    cases e with
    | destroy => exact absurd rfl hD
    | tick paused res now =>
      simp only [step]
      split_ifs <;> simp [detectFrameResume_frames]
    | loadModels ok => simp only [step]; split_ifs <;> exact le_refl _
    | startWebcam ok => simp only [step]; split_ifs <;> exact le_refl _
    | stopWebcam => exact le_refl _
    | startDetection => simp only [step]; split_ifs <;> exact le_refl _
    | stopDetection => exact le_refl _
    | captureAnswerSnapshot => exact le_refl _

/-- Witness for C7: at a concrete non-empty state, `stopDetection` leaves
the current-answer buffer and the session-log length unchanged, and a
concrete capture appends one snapshot, clears the buffer and keeps the
log. -/
theorem C7_capture_and_log_monotone_witness :
    ((step runningState .captureAnswerSnapshot).snapshots =
        runningState.snapshots ++ [getCurrentSnapshot runningState] ∧
      (step runningState .captureAnswerSnapshot).currentAnswerFrames = [] ∧
      (step runningState .captureAnswerSnapshot).frames = runningState.frames) ∧
    (step runningState .stopDetection).currentAnswerFrames =
      runningState.currentAnswerFrames ∧
    runningState.frames.length ≤ (step runningState .stopDetection).frames.length := by
  have h := C7_capture_and_log_monotone runningState .stopDetection
  exact ⟨h.1, h.2.1 rfl (by decide) (by decide), h.2.2 (by decide)⟩

-- ── C10 ───────────────────────────────────────────────────────────

theorem step_preserves_suffix (s : EngineState) (e : Event)
    (h : s.currentAnswerFrames <:+ s.frames) :
    (step s e).currentAnswerFrames <:+ (step s e).frames := by
  cases e with
  | loadModels ok => simp only [step]; split_ifs <;> exact h
  | startWebcam ok => simp only [step]; split_ifs <;> exact h
  | stopWebcam => exact h
  | startDetection => simp only [step]; split_ifs <;> exact h
  | stopDetection => exact h
  | captureAnswerSnapshot => exact List.nil_suffix
  | destroy => exact List.nil_suffix
  | tick paused res now =>
    simp only [step]
    split_ifs with h1 h2
    · exact h
    · rw [detectFrameResume_frames, detectFrameResume_curr]
      obtain ⟨t, ht⟩ := h
      exact ⟨t, by rw [← List.append_assoc, ht]⟩
    · exact h

/-- Claim C10: along every event trace from the fresh instance, the
current-answer buffer is a suffix of the session frame log; a settled tick
appends one identical frame list to both collections, and `destroy` clears
both (making the buffer the empty suffix of the empty log). -/
theorem C10_answer_buffer_suffix (es : List Event) :
    (run initState es).currentAnswerFrames <:+ (run initState es).frames ∧
    (∀ (s : EngineState) (res : ClassifierResult) (now : ℕ),
      (detectFrameResume s res now).frames = s.frames ++ tickAppend res now ∧
      (detectFrameResume s res now).currentAnswerFrames =
        s.currentAnswerFrames ++ tickAppend res now) ∧
    (∀ s : EngineState, (step s .destroy).frames = [] ∧
      (step s .destroy).currentAnswerFrames = []) := by
  refine ⟨?_, fun s res now => ⟨detectFrameResume_frames s res now,
    detectFrameResume_curr s res now⟩, fun s => ⟨rfl, rfl⟩⟩
  have key : ∀ (l : List Event) (s : EngineState),
      s.currentAnswerFrames <:+ s.frames →
      (run s l).currentAnswerFrames <:+ (run s l).frames := by
    intro l
    induction l with
    | nil => intro s hs; exact hs
    | cons e tl ih =>
      intro s hs
      exact ih (step s e) (step_preserves_suffix s e hs)
  exact key es initState (List.nil_suffix)

-- ── C8 ────────────────────────────────────────────────────────────

theorem filter_lastWindow_filter (fs : List EmotionFrame) :
    (lastWindow (fs.filter isValidFrame)).filter isValidFrame =
      lastWindow (fs.filter isValidFrame) := by
  apply List.filter_eq_self.mpr
  intro a ha
  exact List.of_mem_filter (List.drop_subset _ _ ha)

theorem lastWindow_idem (l : List EmotionFrame) :
    lastWindow (lastWindow l) = lastWindow l := by
  unfold lastWindow
  rw [List.length_drop]
  have h : l.length - (l.length - SMOOTHING_WINDOW) - SMOOTHING_WINDOW = 0 := by
    omega
  rw [h, List.drop_zero]

theorem lastWindow_isEmpty (l : List EmotionFrame) :
    (lastWindow l).isEmpty = l.isEmpty := by
  by_cases h : l = []
  · subst h; rfl
  · have h1 : lastWindow l ≠ [] := by
      unfold lastWindow
      rw [Ne, List.drop_eq_nil_iff]
      have : l.length ≠ 0 := by
        simpa [List.length_eq_zero] using h
      simp only [SMOOTHING_WINDOW]
      omega
    rw [List.isEmpty_eq_false.mpr h1, List.isEmpty_eq_false.mpr h]

/-- Claim C8: `getSessionSummary()` and the `sessionAverage` field of
`getTimeline()` are `computeSmoothedSnapshot` applied to the entire
session frame log, and `computeSmoothedSnapshot` restricts to the fixed
trailing window of `SMOOTHING_WINDOW` (= 5) valid frames: its result on
any input equals its result on just the last 5 valid frames, except that
`frameCount` reports the total number of valid frames. -/
theorem C8_session_summary_window (s : EngineState)
    (b : Option EmotionScores) (fs : List EmotionFrame) :
    getSessionSummary s = computeSmoothedSnapshot s.calibrationBaseline s.frames ∧
    (getTimeline s).sessionAverage = getSessionSummary s ∧
    computeSmoothedSnapshot b fs =
      { computeSmoothedSnapshot b (lastWindow (fs.filter isValidFrame)) with
        frameCount := (fs.filter isValidFrame).length } := by
  refine ⟨rfl, rfl, ?_⟩
  have hfil := filter_lastWindow_filter fs
  have hid := lastWindow_idem (fs.filter isValidFrame)
  have hie := lastWindow_isEmpty (fs.filter isValidFrame)
  by_cases h : (fs.filter isValidFrame).isEmpty
  · have hl : (fs.filter isValidFrame).length = 0 := by
      rw [List.isEmpty_iff] at h
      simp [h]
    simp only [computeSmoothedSnapshot, hfil, hie, h, if_true, hl, zeroSnapshot]
  · simp only [Bool.not_eq_true] at h
    simp only [computeSmoothedSnapshot, hfil, hid, hie, h, Bool.false_eq_true,
      if_false]

-- ── C6 ────────────────────────────────────────────────────────────

/-- Four valid ticks of `{happy: 0.8, neutral: 0.2}` at confidence 0.9,
straight after `startDetection()`. -/
def scenarioC6 : EngineState :=
  runTicks runningState (List.replicate 4 (.face happyScores (9/10)))

/-- Claim C6: after 4 valid frames `{happy: 0.8, neutral: 0.2, others: 0}`
at confidence 0.9 (`MIN_CONFIDENCE` = 1/2, calibration still short of
`CALIBRATION_FRAMES` = 10, so no baseline), `getCurrentSnapshot()` returns
dominant `"happy"`, engagement 80, positivity 80, stress 0 and
frame count 4. -/
theorem C6_concrete_scenario :
    (getCurrentSnapshot scenarioC6).dominant = "happy" ∧
    (getCurrentSnapshot scenarioC6).engagement = 80 ∧
    (getCurrentSnapshot scenarioC6).positivity = 80 ∧
    (getCurrentSnapshot scenarioC6).stress = 0 ∧
    (getCurrentSnapshot scenarioC6).frameCount = 4 ∧
    scenarioC6.calibrationBaseline = none := by
  norm_num [scenarioC6, runningState, readyState, runTicks, step,
    detectFrameResume, getCurrentSnapshot, computeSmoothedSnapshot,
    isValidFrame, lastWindow, averageScores, getDominant, scoreEntries,
    roundJS, happyScores, EMPTY_SCORES, MIN_CONFIDENCE, CALIBRATION_FRAMES,
    SMOOTHING_WINDOW, List.replicate, zeroSnapshot, min_def]

-- ── C2 ────────────────────────────────────────────────────────────

/-- A single valid frame whose neutral weight exceeds 1. -/
def highNeutralFrame : EmotionFrame :=
  { timestamp := 0
    emotions := { neutral := 2, happy := 0, sad := 0, angry := 0
                  fearful := 0, disgusted := 0, surprised := 0 }
    confidence := 9/10, faceDetected := true }

/-- Claim C2 counterexample: with no calibration baseline, a single valid
frame with neutral weight 2 makes `engagement` equal to −100 — the
composite is clamped at 100 from above by `Math.min` but has no lower
clamp, so it is not in [0, 100]. -/
theorem C2_counterexample :
    (computeSmoothedSnapshot none [highNeutralFrame]).engagement = -100 ∧
    (computeSmoothedSnapshot none [highNeutralFrame]).engagement < 0 := by
  norm_num [computeSmoothedSnapshot, isValidFrame, lastWindow, averageScores,
    roundJS, highNeutralFrame, MIN_CONFIDENCE, SMOOTHING_WINDOW, min_def]

theorem list_sum_le_length (l : List ℚ) (h : ∀ x ∈ l, x ≤ 1) :
    l.sum ≤ (l.length : ℚ) := by
  have := List.sum_le_card_nsmul l 1 h
  simpa [nsmul_eq_mul] using this

theorem averageScores_nonneg (l : List EmotionScores)
    (h : ∀ x ∈ l, nonnegScores x) : nonnegScores (averageScores l) := by
  unfold averageScores
  by_cases he : l.isEmpty
  · simp only [he, if_true]
    exact ⟨le_refl 0, le_refl 0, le_refl 0, le_refl 0, le_refl 0, le_refl 0,
      le_refl 0⟩
  · simp only [he, Bool.false_eq_true, if_false]
    have hn : (0:ℚ) ≤ (l.length : ℚ) := by positivity
    refine ⟨?_, ?_, ?_, ?_, ?_, ?_, ?_⟩ <;>
      exact div_nonneg
        (List.sum_nonneg (by
          intro x hx
          obtain ⟨f, hf, rfl⟩ := List.mem_map.mp hx
          obtain ⟨n1, n2, n3, n4, n5, n6, n7⟩ := h f hf
          first
            | exact n1 | exact n2 | exact n3 | exact n4
            | exact n5 | exact n6 | exact n7)) hn

theorem averageScores_neutral_le_one (l : List EmotionScores)
    (h : ∀ x ∈ l, x.neutral ≤ 1) : (averageScores l).neutral ≤ 1 := by
  unfold averageScores
  by_cases he : l.isEmpty
  · simp [he, EMPTY_SCORES]
  · simp only [he, Bool.false_eq_true, if_false]
    have hne : l ≠ [] := by
      intro hnil
      rw [hnil] at he
      exact he rfl
    have hpos : (0:ℚ) < (l.length : ℚ) := by
      have : 0 < l.length := List.length_pos.mpr hne
      exact_mod_cast this
    rw [div_le_one hpos]
    have hs : (l.map (·.neutral)).sum ≤ ((l.map (·.neutral)).length : ℚ) := by
      apply list_sum_le_length
      intro x hx
      obtain ⟨f, hf, rfl⟩ := List.mem_map.mp hx
      exact h f hf
    simpa using hs

theorem applyCalibration_nonneg_neutral (s b : EmotionScores) :
    nonnegScores (applyCalibration s b) ∧ (applyCalibration s b).neutral ≤ 1 := by
  have h1 : (0:ℚ) ≤ (shiftedScores s b).neutral := le_max_left ..
  have h2 : (0:ℚ) ≤ (shiftedScores s b).happy := le_max_left ..
  have h3 : (0:ℚ) ≤ (shiftedScores s b).sad := le_max_left ..
  have h4 : (0:ℚ) ≤ (shiftedScores s b).angry := le_max_left ..
  have h5 : (0:ℚ) ≤ (shiftedScores s b).fearful := le_max_left ..
  have h6 : (0:ℚ) ≤ (shiftedScores s b).disgusted := le_max_left ..
  have h7 : (0:ℚ) ≤ (shiftedScores s b).surprised := le_max_left ..
  have hneu : (shiftedScores s b).neutral ≤ sumScores (shiftedScores s b) := by
    unfold sumScores; linarith
  by_cases hpos : 0 < sumScores (shiftedScores s b)
  · have happ : applyCalibration s b =
        { neutral := (shiftedScores s b).neutral / sumScores (shiftedScores s b)
          happy := (shiftedScores s b).happy / sumScores (shiftedScores s b)
          sad := (shiftedScores s b).sad / sumScores (shiftedScores s b)
          angry := (shiftedScores s b).angry / sumScores (shiftedScores s b)
          fearful := (shiftedScores s b).fearful / sumScores (shiftedScores s b)
          disgusted := (shiftedScores s b).disgusted / sumScores (shiftedScores s b)
          surprised := (shiftedScores s b).surprised / sumScores (shiftedScores s b) } := by
      rw [applyCalibration]
      simp only [if_pos hpos]
    rw [happ]
    have hle := le_of_lt hpos
    refine ⟨⟨div_nonneg h1 hle, div_nonneg h2 hle, div_nonneg h3 hle,
      div_nonneg h4 hle, div_nonneg h5 hle, div_nonneg h6 hle,
      div_nonneg h7 hle⟩, ?_⟩
    exact (div_le_one hpos).mpr hneu
  · have happ : applyCalibration s b = shiftedScores s b := by
      rw [applyCalibration]
      simp only [if_neg hpos]
    rw [happ]
    have hz : (shiftedScores s b).neutral ≤ 0 := le_trans hneu (not_lt.mp hpos)
    exact ⟨⟨h1, h2, h3, h4, h5, h6, h7⟩, le_trans hz (by norm_num)⟩

theorem computeSmoothedSnapshot_composites (b : Option EmotionScores)
    (fs : List EmotionFrame) (h : (fs.filter isValidFrame).isEmpty = false) :
    (computeSmoothedSnapshot b fs).engagement =
      min 100 (roundJS ((1 - (computeSmoothedSnapshot b fs).scores.neutral) * 100)) ∧
    (computeSmoothedSnapshot b fs).stress =
      min 100 (roundJS (((computeSmoothedSnapshot b fs).scores.angry +
        (computeSmoothedSnapshot b fs).scores.fearful +
        (computeSmoothedSnapshot b fs).scores.sad +
        (computeSmoothedSnapshot b fs).scores.disgusted) * 100)) ∧
    (computeSmoothedSnapshot b fs).positivity =
      min 100 (roundJS (((computeSmoothedSnapshot b fs).scores.happy +
        (computeSmoothedSnapshot b fs).scores.surprised * (1/2)) * 100)) := by
  simp only [computeSmoothedSnapshot, h, Bool.false_eq_true, if_false]
  exact ⟨trivial, trivial, trivial⟩

theorem computeSmoothedSnapshot_scores_shape (b : Option EmotionScores)
    (fs : List EmotionFrame) (h : (fs.filter isValidFrame).isEmpty = false) :
    (computeSmoothedSnapshot b fs).scores =
      (match b with
        | some bb => applyCalibration
            (averageScores ((lastWindow (fs.filter isValidFrame)).map (·.emotions))) bb
        | none =>
            averageScores ((lastWindow (fs.filter isValidFrame)).map (·.emotions))) := by
  simp only [computeSmoothedSnapshot, h, Bool.false_eq_true, if_false]

theorem composites_in_range (c : EmotionScores) (hn : nonnegScores c)
    (hneu : c.neutral ≤ 1) :
    (min 100 (roundJS ((1 - c.neutral) * 100)) ≤ 100 ∧
      0 ≤ min 100 (roundJS ((1 - c.neutral) * 100))) ∧
    (min 100 (roundJS ((c.angry + c.fearful + c.sad + c.disgusted) * 100)) ≤ 100 ∧
      0 ≤ min 100 (roundJS ((c.angry + c.fearful + c.sad + c.disgusted) * 100))) ∧
    (min 100 (roundJS ((c.happy + c.surprised * (1/2)) * 100)) ≤ 100 ∧
      0 ≤ min 100 (roundJS ((c.happy + c.surprised * (1/2)) * 100))) := by
  obtain ⟨n1, n2, n3, n4, n5, n6, n7⟩ := hn
  refine ⟨⟨min_le_left _ _, ?_⟩, ⟨min_le_left _ _, ?_⟩, ⟨min_le_left _ _, ?_⟩⟩
  · exact le_min (by norm_num)
      (roundJS_nonneg (mul_nonneg (by linarith) (by norm_num)))
  · exact le_min (by norm_num)
      (roundJS_nonneg (mul_nonneg (by linarith) (by norm_num)))
  · exact le_min (by norm_num)
      (roundJS_nonneg (mul_nonneg (by linarith) (by norm_num)))

/-- Claim C2 amended: `engagement`, `stress` and `positivity` are integers
(by construction of `Math.round` and `Math.min`) that are always at most
100, but only `Math.min(100, ·)` is applied — there is no lower clamp.
They are additionally non-negative, hence in [0, 100], whenever the
calibrated scores entering the composites are non-negative with a neutral
weight at most 1; that holds unconditionally when a calibration baseline
is applied, and, when no baseline exists, whenever every input frame's
scores are non-negative with neutral at most 1 (in particular for genuine
probability vectors).  Without that proviso `engagement` can be negative
(see the counterexample). -/
theorem C2_composites_range (b : Option EmotionScores) (fs : List EmotionFrame)
    (h : b = none → ∀ f ∈ fs, nonnegScores f.emotions ∧ f.emotions.neutral ≤ 1) :
    (computeSmoothedSnapshot b fs).engagement ≤ 100 ∧
    (computeSmoothedSnapshot b fs).stress ≤ 100 ∧
    (computeSmoothedSnapshot b fs).positivity ≤ 100 ∧
    0 ≤ (computeSmoothedSnapshot b fs).engagement ∧
    0 ≤ (computeSmoothedSnapshot b fs).stress ∧
    0 ≤ (computeSmoothedSnapshot b fs).positivity := by
  by_cases he : (fs.filter isValidFrame).isEmpty
  · have hz : computeSmoothedSnapshot b fs = zeroSnapshot := by
      simp only [computeSmoothedSnapshot, he, if_true]
    rw [hz]
    norm_num [zeroSnapshot]
  · simp only [Bool.not_eq_true] at he
    obtain ⟨hce, hcs, hcp⟩ := computeSmoothedSnapshot_composites b fs he
    have hc : nonnegScores (computeSmoothedSnapshot b fs).scores ∧
        (computeSmoothedSnapshot b fs).scores.neutral ≤ 1 := by
      rw [computeSmoothedSnapshot_scores_shape b fs he]
      cases b with
      | some bb => exact applyCalibration_nonneg_neutral _ bb
      | none =>
        have hmem : ∀ x ∈ (lastWindow (fs.filter isValidFrame)).map (·.emotions),
            nonnegScores x ∧ x.neutral ≤ 1 := by
          intro x hx
          obtain ⟨f, hf, rfl⟩ := List.mem_map.mp hx
          have hf1 : f ∈ fs.filter isValidFrame := List.drop_subset _ _ hf
          exact h rfl f (List.mem_of_mem_filter hf1)
        exact ⟨averageScores_nonneg _ (fun x hx => (hmem x hx).1),
          averageScores_neutral_le_one _ (fun x hx => (hmem x hx).2)⟩
    obtain ⟨hcnn, hcneu⟩ := hc
    obtain ⟨⟨e1, e2⟩, ⟨s1, s2⟩, ⟨p1, p2⟩⟩ :=
      composites_in_range (computeSmoothedSnapshot b fs).scores hcnn hcneu
    rw [hce, hcs, hcp]
    exact ⟨e1, s1, p1, e2, s2, p2⟩

/-- Witness for C2's amended theorem: with no baseline and one valid
probability-vector frame, the composites land in [0, 100]. -/
theorem C2_composites_range_witness :
    (computeSmoothedSnapshot none
      [{ timestamp := 0, emotions := happyScores, confidence := 9/10
         faceDetected := true }]).engagement ≤ 100 ∧
    (computeSmoothedSnapshot none
      [{ timestamp := 0, emotions := happyScores, confidence := 9/10
         faceDetected := true }]).stress ≤ 100 ∧
    (computeSmoothedSnapshot none
      [{ timestamp := 0, emotions := happyScores, confidence := 9/10
         faceDetected := true }]).positivity ≤ 100 ∧
    0 ≤ (computeSmoothedSnapshot none
      [{ timestamp := 0, emotions := happyScores, confidence := 9/10
         faceDetected := true }]).engagement ∧
    0 ≤ (computeSmoothedSnapshot none
      [{ timestamp := 0, emotions := happyScores, confidence := 9/10
         faceDetected := true }]).stress ∧
    0 ≤ (computeSmoothedSnapshot none
      [{ timestamp := 0, emotions := happyScores, confidence := 9/10
         faceDetected := true }]).positivity := by
  apply C2_composites_range
  intro _ f hf
  simp only [List.mem_singleton] at hf
  subst hf
  refine ⟨⟨?_, ?_, ?_, ?_, ?_, ?_, ?_⟩, ?_⟩ <;> norm_num [happyScores, nonnegScores]

-- ── C5 ────────────────────────────────────────────────────────────

/-- A settled tick result that counts toward calibration: a detected face
with confidence at least `MIN_CONFIDENCE`. -/
def isValidResult : ClassifierResult → Bool
  | .face _ conf => decide (MIN_CONFIDENCE ≤ conf)
  | .noFace => false
  | .error => false

/-- The frame a valid tick result ingests (timestamps fixed at 0, as in
`runTicks`; the junk arms are never reached on valid results). -/
def resultFrame : ClassifierResult → EmotionFrame
  | .face emo conf =>
    { timestamp := 0, emotions := emo, confidence := conf, faceDetected := true }
  | .noFace =>
    { timestamp := 0, emotions := EMPTY_SCORES, confidence := 0
      faceDetected := false }
  | .error =>
    { timestamp := 0, emotions := EMPTY_SCORES, confidence := 0
      faceDetected := false }

/-- The valid frames a run of settled ticks ingests, in order. -/
def validTickFrames (results : List ClassifierResult) : List EmotionFrame :=
  (results.filter isValidResult).map resultFrame

theorem detectFrameResume_calib_frozen (s : EngineState)
    (res : ClassifierResult) (now : ℕ) (h : s.isCalibrating = false) :
    (detectFrameResume s res now).calibrationBaseline = s.calibrationBaseline ∧
    (detectFrameResume s res now).isCalibrating = false := by
  cases res with
  | face emo conf =>
    by_cases hc : MIN_CONFIDENCE ≤ conf <;>
      simp [detectFrameResume, hc, h]
  | noFace => exact ⟨rfl, h⟩
  | error => exact ⟨rfl, h⟩

theorem runTicks_baseline_frozen (results : List ClassifierResult)
    (s : EngineState) (hC : s.isCalibrating = false) :
    (runTicks s results).calibrationBaseline = s.calibrationBaseline ∧
    (runTicks s results).isCalibrating = false := by
  induction results generalizing s with
  | nil => exact ⟨rfl, hC⟩
  | cons r tl ih =>
    have hone : (step s (.tick false r 0)).calibrationBaseline =
        s.calibrationBaseline ∧
        (step s (.tick false r 0)).isCalibrating = false := by
      simp only [step]
      split_ifs with h1 h2
      · exact ⟨rfl, hC⟩
      · exact detectFrameResume_calib_frozen _ r 0 hC
      · exact ⟨rfl, hC⟩
    have := ih (step s (.tick false r 0)) hone.2
    exact ⟨this.1.trans hone.1, this.2⟩

theorem detectFrameResume_calib_hit (s : EngineState) (emo : EmotionScores)
    (conf : ℚ) (now : ℕ) (hconf : MIN_CONFIDENCE ≤ conf)
    (hC : s.isCalibrating = true)
    (h10 : CALIBRATION_FRAMES ≤ s.calibrationFrames.length + 1) :
    detectFrameResume s (.face emo conf) now =
      { s with
        frames := s.frames ++
          [{ timestamp := now, emotions := emo, confidence := conf
             faceDetected := true }]
        currentAnswerFrames := s.currentAnswerFrames ++
          [{ timestamp := now, emotions := emo, confidence := conf
             faceDetected := true }]
        calibrationFrames := s.calibrationFrames ++
          [{ timestamp := now, emotions := emo, confidence := conf
             faceDetected := true }]
        calibrationBaseline := some (averageScores
          (List.map (fun f => f.emotions)
            (s.calibrationFrames ++
              [{ timestamp := now, emotions := emo, confidence := conf
                 faceDetected := true }])))
        isCalibrating := false } := by
  simp only [detectFrameResume]
  rw [if_pos hconf]
  split_ifs with h1
  · rfl
  · exfalso
    apply h1
    show CALIBRATION_FRAMES ≤ (s.calibrationFrames ++ [_]).length
    simpa [List.length_append] using h10

theorem detectFrameResume_calib_accum (s : EngineState) (emo : EmotionScores)
    (conf : ℚ) (now : ℕ) (hconf : MIN_CONFIDENCE ≤ conf)
    (hC : s.isCalibrating = true)
    (h10 : ¬ CALIBRATION_FRAMES ≤ s.calibrationFrames.length + 1) :
    detectFrameResume s (.face emo conf) now =
      { s with
        frames := s.frames ++
          [{ timestamp := now, emotions := emo, confidence := conf
             faceDetected := true }]
        currentAnswerFrames := s.currentAnswerFrames ++
          [{ timestamp := now, emotions := emo, confidence := conf
             faceDetected := true }]
        calibrationFrames := s.calibrationFrames ++
          [{ timestamp := now, emotions := emo, confidence := conf
             faceDetected := true }] } := by
  simp only [detectFrameResume]
  rw [if_pos hconf]
  split_ifs with h1
  · exfalso
    apply h10
    simpa [List.length_append] using h1
  · rfl

theorem runTicks_frozen_baseline (tl : List ClassifierResult)
    (t : EngineState) (ht : t.isCalibrating = false) :
    (runTicks t tl).calibrationBaseline = t.calibrationBaseline :=
  (runTicks_baseline_frozen tl t ht).1

theorem runTicks_baseline_calibrating (results : List ClassifierResult)
    (s : EngineState) (hA : s.intervalActive = true) (hV : s.hasVideo = true)
    (hC : s.isCalibrating = true)
    (hlen : s.calibrationFrames.length < CALIBRATION_FRAMES) :
    (runTicks s results).calibrationBaseline =
      if (validTickFrames results).length + s.calibrationFrames.length <
          CALIBRATION_FRAMES
      then s.calibrationBaseline
      else some (averageScores
        (((s.calibrationFrames ++ validTickFrames results).take
          CALIBRATION_FRAMES).map (fun f => f.emotions))) := by
  induction results generalizing s with
  | nil =>
    have hcond : (validTickFrames []).length + s.calibrationFrames.length <
        CALIBRATION_FRAMES := by
      simpa [validTickFrames] using hlen
    rw [if_pos hcond]
    rfl
  | cons r tl ih =>
    have hstep : step s (.tick false r 0) =
        detectFrameResume { s with classifierCalls := s.classifierCalls + 1 }
          r 0 := by
      simp [step, hA, hV]
    have hrun : runTicks s (r :: tl) =
        runTicks (step s (.tick false r 0)) tl := rfl
    rw [hrun, hstep]
    cases r with
    | error =>
      rw [show detectFrameResume
          { s with classifierCalls := s.classifierCalls + 1 } .error 0 =
          { s with classifierCalls := s.classifierCalls + 1 } from rfl]
      rw [ih { s with classifierCalls := s.classifierCalls + 1 } hA hV hC hlen]
      simp [validTickFrames, isValidResult]
    | noFace =>
      rw [show detectFrameResume
          { s with classifierCalls := s.classifierCalls + 1 } .noFace 0 =
          { s with classifierCalls := s.classifierCalls + 1
                   frames := s.frames ++ [resultFrame .noFace]
                   currentAnswerFrames :=
                     s.currentAnswerFrames ++ [resultFrame .noFace] } from rfl]
      rw [ih { s with classifierCalls := s.classifierCalls + 1
                      frames := s.frames ++ [resultFrame .noFace]
                      currentAnswerFrames :=
                        s.currentAnswerFrames ++ [resultFrame .noFace] }
        hA hV hC hlen]
      simp [validTickFrames, isValidResult]
    | face emo conf =>
      by_cases hconf : MIN_CONFIDENCE ≤ conf
      · have hvtf : validTickFrames (.face emo conf :: tl) =
            resultFrame (.face emo conf) :: validTickFrames tl := by
          simp [validTickFrames, isValidResult, hconf]
        by_cases h10 : CALIBRATION_FRAMES ≤ s.calibrationFrames.length + 1
        · rw [detectFrameResume_calib_hit
            { s with classifierCalls := s.classifierCalls + 1 }
            emo conf 0 hconf hC h10]
          refine Eq.trans (runTicks_frozen_baseline tl _ rfl) ?_
          dsimp only
          have hcflen : (s.calibrationFrames ++
              [({ timestamp := 0, emotions := emo, confidence := conf
                  faceDetected := true } : EmotionFrame)]).length =
              CALIBRATION_FRAMES := by
            simp only [List.length_append, List.length_singleton]
            omega
          have hcond : ¬ ((validTickFrames (.face emo conf :: tl)).length +
              s.calibrationFrames.length < CALIBRATION_FRAMES) := by
            rw [hvtf]
            simp only [List.length_cons]
            omega
          rw [if_neg hcond]
          conv_rhs => rw [hvtf]
          simp only [resultFrame]
          conv_rhs => rw [List.append_cons, ← hcflen, List.take_left]
        · rw [detectFrameResume_calib_accum
            { s with classifierCalls := s.classifierCalls + 1 }
            emo conf 0 hconf hC h10]
          rw [ih { s with classifierCalls := s.classifierCalls + 1
                          frames := s.frames ++
                            [{ timestamp := 0, emotions := emo
                               confidence := conf, faceDetected := true }]
                          currentAnswerFrames := s.currentAnswerFrames ++
                            [{ timestamp := 0, emotions := emo
                               confidence := conf, faceDetected := true }]
                          calibrationFrames := s.calibrationFrames ++
                            [{ timestamp := 0, emotions := emo
                               confidence := conf, faceDetected := true }] }
            hA hV hC
            (by simp only [List.length_append, List.length_singleton]; omega)]
          dsimp only
          apply if_congr
          · rw [hvtf]
            simp only [List.length_append, List.length_singleton,
              List.length_cons, List.length_nil, resultFrame]
            omega
          · rfl
          · conv_rhs => rw [hvtf]
            simp only [resultFrame]
            conv_rhs => rw [List.append_cons]
      · rw [show detectFrameResume
            { s with classifierCalls := s.classifierCalls + 1 }
            (.face emo conf) 0 =
            { s with classifierCalls := s.classifierCalls + 1 } from by
          simp [detectFrameResume, hconf]]
        rw [ih { s with classifierCalls := s.classifierCalls + 1 } hA hV hC hlen]
        simp [validTickFrames, isValidResult, hconf]

/-- Claim C5: within a session (one `startDetection()` from a ready
instance followed by settled ticks), the calibration baseline is `none`
until exactly `CALIBRATION_FRAMES` (= 10) valid frames have been observed,
at which instant it becomes the per-category arithmetic mean of those
first 10 valid frames' scores, and it keeps exactly that value no matter
how many further frames arrive; while it is `none`,
`computeSmoothedSnapshot` applies no baseline correction — its scores are
the plain window average. -/
theorem C5_baseline_set_once (results : List ClassifierResult) :
    (runTicks runningState results).calibrationBaseline =
      (if (validTickFrames results).length < CALIBRATION_FRAMES then none
       else some (averageScores
         (((validTickFrames results).take CALIBRATION_FRAMES).map
           (fun f => f.emotions)))) ∧
    (∀ fs : List EmotionFrame, (computeSmoothedSnapshot none fs).scores =
      averageScores ((lastWindow (fs.filter isValidFrame)).map
        (fun f => f.emotions))) := by
  constructor
  · have h := runTicks_baseline_calibrating results runningState rfl rfl rfl
      (by decide)
    rw [h]
    rw [show runningState.calibrationFrames = [] from rfl,
      show runningState.calibrationBaseline = none from rfl]
    simp only [List.nil_append, List.length_nil, Nat.add_zero]
  · intro fs
    by_cases h : (fs.filter isValidFrame).isEmpty
    · have hnil : fs.filter isValidFrame = [] := by
        simpa [List.isEmpty_iff] using h
      simp [computeSmoothedSnapshot, h, zeroSnapshot, hnil, lastWindow,
        averageScores]
    · rw [computeSmoothedSnapshot_scores_shape none fs
        (by simpa using h)]
